import Mathlib

/-!
Shallow embedding of the `mp2c` repository (Rust), for checking its
natural-language specification.

The repository has two modules:

* `src/asynch.rs` — the working multi-producer / multi-polling-consumer
  carousel: an `Event` enum, a `Poller` (delivery lane) worker loop, a
  `Multipier` (dispatcher) worker loop that fans every event out to all
  lanes, and a `Carousel` handle with `new` / `put` / `Clone` / `Drop`.
* `src/mp2c.rs` — an abandoned ring-buffer draft (`Store`, `head`,
  `is_full`, `add`).

Worker loops are embedded as functions over a finite trace of channel
receive results (each `RecvResult` is one `rx.recv()` outcome); channel
FIFO order is the order of the trace list.  Machine state that the claims
need (join handles, the shared sender, the drop sequence) is embedded as
explicit data, with `Drop` producing the list of shutdown actions it
performs, in order.
-/

namespace Asynch

/-- Payload bytes: `type Data = Box<Vec<u8>>` (the box is ownership only,
so a payload value is the byte vector). -/
abbrev Data := List Nat

/-- `Event` from src/asynch.rs: `Message(Data)` or `Terminate`.  The enum is
private to the module (no `pub`). -/
inductive Event where
  | Message : Data → Event
  | Terminate : Event
deriving DecidableEq, Repr

/-- `Vec::clone` copies the bytes element by element (the derived `Clone`
of `Event` deep-copies the boxed vector). -/
def cloneData (d : Data) : Data := d.map id

/-- Derived `Clone` for `Event`: `Message` deep-copies its payload,
`Terminate` has nothing to copy. -/
def Event.clone : Event → Event
  | Event.Message d => Event.Message (cloneData d)
  | Event.Terminate => Event.Terminate

/-- One outcome of `rx.recv()`: `Ok(event)` or `Err(RecvError)` (the error
text is what the worker would log). -/
inductive RecvResult where
  | ok : Event → RecvResult
  | err : String → RecvResult
deriving DecidableEq, Repr

/-- The `Poller` worker loop of `Poller::new` (src/asynch.rs lines 35-50),
run over a trace of receive results.  Returns the payloads passed to
`consumer.consume`, in order, and whether the loop exited via `break`
(i.e. on a `Terminate` event).  `Ok(Message(data))` clones the box and
consumes the bytes, then continues; `Ok(Terminate)` breaks; `Err(e)`
prints and continues. -/
def pollerRun : List RecvResult → List Data × Bool
  | [] => ([], false)
  | RecvResult.ok (Event.Message d) :: rest =>
      (cloneData d :: (pollerRun rest).1, (pollerRun rest).2)
  | RecvResult.ok Event.Terminate :: _ => ([], true)
  | RecvResult.err _ :: rest => pollerRun rest

/-- One fan-out step of the `Multipier` worker (src/asynch.rs lines 85-87):
send `event.clone()` on each of the `n` lane senders, in lane order.  Each
send is recorded as (lane index, event sent). -/
def forwardOne (n : Nat) (e : Event) : List (Nat × Event) :=
  (List.range n).map (fun i => (i, Event.clone e))

/-- The `Multipier` worker loop of `Multipier::new` (src/asynch.rs lines
80-95), run over a trace of receive results on the shared channel.
Returns the sends it performs (in order) and whether the loop exited via
`break`.  On `Ok(event)` it forwards a clone to every lane, then breaks
if the event was `Terminate`; on `Err(e)` it prints and continues. -/
def multiplierRun (n : Nat) : List RecvResult → List (Nat × Event) × Bool
  | [] => ([], false)
  | RecvResult.ok Event.Terminate :: _ => (forwardOne n Event.Terminate, true)
  | RecvResult.ok (Event.Message d) :: rest =>
      (forwardOne n (Event.Message d) ++ (multiplierRun n rest).1,
       (multiplierRun n rest).2)
  | RecvResult.err _ :: rest => multiplierRun n rest

/-- The events lane `i` receives, given the dispatcher's send trace: lane
`i`'s channel delivers exactly the sends addressed to it, in send order
(mpsc channels are FIFO). -/
def laneRecv (i : Nat) (sends : List (Nat × Event)) : List Event :=
  (sends.filter (fun p => p.1 == i)).map Prod.snd

/-- The shared-channel trace produced by submitting `msgs` through
`Carousel::put`: each payload arrives as `Ok(Message(payload))`, in
submission order. -/
def recvOf (msgs : List Data) : List RecvResult :=
  msgs.map (fun d => RecvResult.ok (Event.Message d))

/-- The events lane `i` receives when `msgs` are submitted on the shared
channel and dispatched by the multiplier. -/
def laneEvents (n : Nat) (msgs : List Data) (i : Nat) : List Event :=
  laneRecv i (multiplierRun n (recvOf msgs)).1

/-- The payloads consumer `i` observes end to end: its lane's poller run
over the events the dispatcher forwarded to that lane. -/
def consumerObserved (n : Nat) (msgs : List Data) (i : Nat) : List Data :=
  (pollerRun ((laneEvents n msgs i).map RecvResult.ok)).1

/-- `Poller` struct (src/asynch.rs lines 25-27): holds the worker's join
handle inside an `Option` (so `Drop` can `take()` it).  The handle itself
carries no data the claims need, so it is `Unit`. -/
structure Poller where
  thread : Option Unit
deriving DecidableEq, Repr

/-- `Multipier` struct (src/asynch.rs lines 58-61): the pollers it built
and its own worker's join handle. -/
structure Multipier where
  pollers : List Poller
  thread : Option Unit
deriving DecidableEq, Repr

/-- `Carousel` struct (src/asynch.rs lines 153-156): the shared sender
(identified by a channel id) and, on the originating handle only,
`Some(multiplier)`. -/
structure Carousel where
  tx : Nat
  multiplier : Option Multipier
deriving DecidableEq, Repr

/-- `Poller::new` spawns the worker thread and stores its handle. -/
def Poller.new : Poller := { thread := some () }

/-- `Multipier::new` builds one `Poller` per consumer, in input order, and
spawns its own worker thread. -/
def Multipier.new (n : Nat) : Multipier :=
  { pollers := List.replicate n Poller.new, thread := some () }

/-- `Carousel::new` (src/asynch.rs lines 161-177): `assert!(consumers.len()
> 0)` — a panic on empty input, modelled as `none`; otherwise it creates
the shared channel (id 0), builds the multiplier for the consumers and
returns the owning handle. -/
def Carousel.new (consumers : List Nat) : Option Carousel :=
  if consumers.length > 0 then
    some { tx := 0, multiplier := some (Multipier.new consumers.length) }
  else
    none

/-- `impl Clone for Carousel` (src/asynch.rs lines 188-195): the clone
shares the sender, `multiplier` is `Option::None`. -/
def Carousel.clone (c : Carousel) : Carousel :=
  { tx := c.tx, multiplier := Option.none }

/-- One step `Drop` performs, in the order `drop` executes them. -/
inductive ShutdownAction where
  | sendTerminate : ShutdownAction
  | joinMultiplier : ShutdownAction
  | joinPoller : Nat → ShutdownAction
deriving DecidableEq, Repr

/-- The `for poller in &mut multiplier.pollers` loop of `drop`: join each
poller whose handle is still present, in lane order (`k` is the position
of the first poller of the list). -/
def pollerJoins : Nat → List Poller → List ShutdownAction
  | _, [] => []
  | k, p :: ps =>
      match p.thread with
      | some _ => ShutdownAction.joinPoller k :: pollerJoins (k + 1) ps
      | none => pollerJoins (k + 1) ps

/-- `impl Drop for Carousel` (src/asynch.rs lines 197-217) as the ordered
list of actions it performs: nothing when `multiplier` is `None`;
otherwise send `Terminate` on the shared channel, join the multiplier
thread if its handle is present, then join every poller thread. -/
def dropActions (c : Carousel) : List ShutdownAction :=
  match c.multiplier with
  | none => []
  | some m =>
      ShutdownAction.sendTerminate ::
        ((match m.thread with
          | some _ => [ShutdownAction.joinMultiplier]
          | none => []) ++
         pollerJoins 0 m.pollers)

/-- The shared mpsc channel as producers see it: the queued events and
whether the receiving side is gone (channel closed). -/
structure SharedChannel where
  queue : List Event
  closed : Bool
deriving DecidableEq, Repr

/-- `SendError` returned by `Sender::send` when the receiver is gone; it
hands the unsent event back. -/
inductive SendError where
  | disconnected : Event → SendError
deriving DecidableEq, Repr

/-- `Sender::send`: enqueue the event, or fail with `SendError` when the
channel is closed. -/
def SharedChannel.send (ch : SharedChannel) (e : Event) :
    Except SendError SharedChannel :=
  if ch.closed then Except.error (SendError.disconnected e)
  else Except.ok { ch with queue := ch.queue ++ [e] }

/-- `Result::unwrap` on a send result: `Ok` yields the value, `Err`
panics — modelled as `none`; no error value reaches the caller. -/
def unwrapSend : Except SendError SharedChannel → Option SharedChannel
  | Except.ok ch => some ch
  | Except.error _ => none

/-- `Carousel::put` (src/asynch.rs lines 181-185): box the bytes, wrap
them as `Event::Message`, send on the shared channel, `unwrap()` the
result. -/
def Carousel.put (c : Carousel) (d : Data) (ch : SharedChannel) :
    Option SharedChannel :=
  let _ := c.tx
  unwrapSend (ch.send (Event.Message d))

/-- A call on the module's public surface that can touch the shared
channel: `put` on any handle, dropping the originating handle, dropping a
clone.  (`Event` itself is not `pub`, so no other surface exists.) -/
inductive ApiCall where
  | put : Data → ApiCall
  | dropOwner : ApiCall
  | dropClone : ApiCall
deriving DecidableEq, Repr

/-- The events one API call sends on the shared channel: `put d` sends
`Message(d)` (src/asynch.rs line 183-184), dropping the owning handle
sends `Terminate` (line 202), dropping a clone sends nothing (its
`multiplier` is `None`). -/
def apiSends : ApiCall → List Event
  | ApiCall.put d => [Event.Message d]
  | ApiCall.dropOwner => [Event.Terminate]
  | ApiCall.dropClone => []

/-- All events a sequence of API calls sends on the shared channel, in
order. -/
def sentEvents (calls : List ApiCall) : List Event :=
  calls.flatMap apiSends

end Asynch

namespace Mp2c

/-- `Event` from src/mp2c.rs (the draft's public enum): `Message(Vec<u8>)`
or `Terminate`. -/
inductive Event where
  | Message : List Nat → Event
  | Terminate : Event
deriving DecidableEq, Repr

/-- `Store` (src/mp2c.rs lines 18-22): the ring buffer's capacity, backing
vector and tail index.  The backing vector is a Rust `Vec`, so indexing is
bounds-checked against its *length*, not its capacity. -/
structure Store where
  size : Nat
  data : List Event
  tail : Nat
deriving DecidableEq, Repr

/-- The `count` state of a draft `Poller` (src/mp2c.rs lines 39-49): the
number of events it has processed, reported through `Counter::count`. -/
structure Poller where
  count : Nat
deriving DecidableEq, Repr

/-- The draft `Carousel` state the ring-buffer functions read (src/mp2c.rs
lines 71-77): its store and its pollers. -/
structure Carousel where
  store : Store
  pollers : List Poller
deriving DecidableEq, Repr

/-- Rust `Iterator::min` over the poller counts. -/
def listMin : List Nat → Option Nat
  | [] => none
  | x :: xs =>
      match listMin xs with
      | none => some x
      | some m => some (min x m)

/-- `Carousel::head` (src/mp2c.rs lines 135-137):
`self.pollers.iter().map(|x| x.count()).min().unwrap_or(0)`. -/
def Carousel.head (c : Carousel) : Nat :=
  (listMin (c.pollers.map Poller.count)).getD 0

/-- `Carousel::is_full` (src/mp2c.rs lines 145-147):
`(self.store.tail % self.store.size) + 1 == self.head()`.  When `size`
is `0` the remainder panics, modelled as `none`. -/
def Carousel.is_full (c : Carousel) : Option Bool :=
  if c.store.size = 0 then none
  else some ((c.store.tail % c.store.size) + 1 == Carousel.head c)

/-- Outcome of the draft `Carousel::add`: `Ok` with the updated store,
the `Err(String)` it returns when full, or a runtime panic (out-of-bounds
index / remainder by zero). -/
inductive AddResult where
  | ok : Store → AddResult
  | err : String → AddResult
  | fatal : String → AddResult
deriving DecidableEq, Repr

/-- `Carousel::add` (src/mp2c.rs lines 149-157): return `Err` when
`is_full`, else assign `self.store.data[self.store.tail] = event` — a
bounds-checked index assignment that panics unless `tail <
data.len()` — then advance `tail` modulo `size`. -/
def Carousel.add (c : Carousel) (e : Event) : AddResult :=
  match Carousel.is_full c with
  | none => AddResult.fatal "remainder by zero"
  | some true => AddResult.err "waiting for readers to finish reading"
  | some false =>
      if c.store.tail < c.store.data.length then
        AddResult.ok
          { size := c.store.size,
            data := c.store.data.set c.store.tail e,
            tail := (c.store.tail + 1) % c.store.size }
      else
        AddResult.fatal "index out of bounds"

/-- The store state built by `Carousel::new` (src/mp2c.rs lines 98-102):
`data: Vec::with_capacity(size)` has capacity `size` but *length 0*, and
`tail: 0`. -/
def freshStore (size : Nat) : Store :=
  { size := size, data := [], tail := 0 }

/-- The carousel state as `Carousel::new` (src/mp2c.rs lines 81-117)
builds it: a fresh store and one poller per consumer, each with
`count: 0`. -/
def Carousel.fresh (size numConsumers : Nat) : Carousel :=
  { store := freshStore size,
    pollers := List.replicate numConsumers { count := 0 } }

end Mp2c

namespace Asynch

/-- Deep-copying an event yields an equal value: the derived `Clone`
copies the payload bytes one by one. -/
lemma clone_eq (e : Event) : Event.clone e = e := by
  cases e with
  | Message d => simp [Event.clone, cloneData]
  | Terminate => rfl

/-- Lane reception distributes over concatenated send traces. -/
lemma laneRecv_append (i : Nat) (xs ys : List (Nat × Event)) :
    laneRecv i (xs ++ ys) = laneRecv i xs ++ laneRecv i ys := by
  simp [laneRecv, List.filter_append]

/-- A send trace addressed to a single lane, as one lane sees it. -/
lemma laneRecv_single (i j : Nat) (e : Event) :
    laneRecv i [(j, e)] = if j = i then [e] else [] := by
  by_cases h : j = i
  · subst h; simp [laneRecv]
  · simp [laneRecv, h]

/-- One fan-out step to `n + 1` lanes is the fan-out to the first `n`
lanes followed by the send to lane `n`. -/
lemma forwardOne_succ (n : Nat) (e : Event) :
    forwardOne (n + 1) e = forwardOne n e ++ [(n, Event.clone e)] := by
  simp [forwardOne, List.range_succ]

/-- From one fan-out step, lane `i` receives exactly one copy of the
event when `i < n`, and nothing otherwise. -/
lemma laneRecv_forwardOne (i n : Nat) (e : Event) :
    laneRecv i (forwardOne n e) = if i < n then [e] else [] := by
  induction n with
  | zero => simp [forwardOne, laneRecv]
  | succ n ih =>
      rw [forwardOne_succ, laneRecv_append, ih, laneRecv_single]
      rcases Nat.lt_trichotomy i n with h | h | h
      · have h1 : i < n + 1 := Nat.lt_succ_of_lt h
        have h2 : ¬ n = i := by omega
        simp [h, h1, h2]
      · subst h
        simp [clone_eq, Nat.lt_irrefl, Nat.lt_succ_self]
      · have h1 : ¬ i < n := by omega
        have h2 : ¬ i < n + 1 := by omega
        have h3 : ¬ n = i := by omega
        simp [h1, h2, h3]

/-- The multiplier's send trace on a message-only receive trace followed
by anything: each message is fanned out in order, then the rest of the
run follows. -/
lemma multiplierRun_recvOf_fst (n : Nat) (msgs : List Data)
    (rs : List RecvResult) :
    (multiplierRun n (recvOf msgs ++ rs)).1
      = (msgs.map (fun d => forwardOne n (Event.Message d))).flatten
          ++ (multiplierRun n rs).1 := by
  induction msgs with
  | nil => simp [recvOf]
  | cons d ms ih =>
      simp only [recvOf, List.map_cons] at ih ⊢
      simp [multiplierRun, ih]

/-- Messages alone never make the multiplier's loop exit. -/
lemma multiplierRun_recvOf_snd (n : Nat) (msgs : List Data)
    (rs : List RecvResult) :
    (multiplierRun n (recvOf msgs ++ rs)).2 = (multiplierRun n rs).2 := by
  induction msgs with
  | nil => simp [recvOf]
  | cons d ms ih =>
      simp only [recvOf, List.map_cons] at ih ⊢
      simp [multiplierRun, ih]

/-- Lane `i < n` receives every message of a fanned-out message block, in
order. -/
lemma laneRecv_msgBlock (n i : Nat) (h : i < n) (msgs : List Data) :
    laneRecv i ((msgs.map (fun d => forwardOne n (Event.Message d))).flatten)
      = msgs.map Event.Message := by
  induction msgs with
  | nil => simp [laneRecv]
  | cons d ms ih => simp [laneRecv_append, laneRecv_forwardOne, h, ih]

/-- Lane `i < n` receives exactly the submitted messages, in submission
order. -/
lemma laneEvents_eq (n i : Nat) (h : i < n) (msgs : List Data) :
    laneEvents n msgs i = msgs.map Event.Message := by
  have h1 := multiplierRun_recvOf_fst n msgs []
  simp [multiplierRun] at h1
  unfold laneEvents
  rw [h1, laneRecv_msgBlock n i h]

/-- A poller run over message events consumes exactly their payloads, in
order, and does not exit. -/
lemma pollerRun_messages (msgs : List Data) :
    pollerRun ((msgs.map Event.Message).map RecvResult.ok) = (msgs, false) := by
  induction msgs with
  | nil => rfl
  | cons d ms ih =>
      simp only [List.map_cons, pollerRun]
      rw [ih]
      simp [cloneData]

/-- C1: for every consumer count `n > 0` and every sequence of submitted
payloads, each of the `n` consumers observes exactly the submitted
payloads, each exactly once, in submission order (per-lane FIFO, no
drops, no duplicates). -/
theorem asynch_broadcast_fifo (n : Nat) (msgs : List Data) (i : Nat)
    (hn : 0 < n) (hi : i < n) :
    consumerObserved n msgs i = msgs := by
  unfold consumerObserved
  rw [laneEvents_eq n i hi, pollerRun_messages]

/-- Witness for C1 at two consumers and three payloads. -/
theorem asynch_broadcast_fifo_witness :
    consumerObserved 2 [[1], [2, 3], [4]] 1 = [[1], [2, 3], [4]] :=
  asynch_broadcast_fifo 2 [[1], [2, 3], [4]] 1 (by decide) (by decide)

/-- C2: on a receive trace of messages followed by a `Terminate` (and
anything after it), the multiplier forwards every received event,
`Terminate` included, to each lane `i < n` — so each lane receives all
the messages and then exactly one `Terminate` — and its loop exits
immediately after forwarding the `Terminate`, never touching the rest of
the trace. -/
theorem multiplier_forwards_and_stops (n : Nat) (msgs : List Data)
    (extra : List RecvResult) (i : Nat) (hi : i < n) :
    laneRecv i
        (multiplierRun n
          (recvOf msgs ++ RecvResult.ok Event.Terminate :: extra)).1
      = msgs.map Event.Message ++ [Event.Terminate]
    ∧ (multiplierRun n
          (recvOf msgs ++ RecvResult.ok Event.Terminate :: extra)).2
        = true := by
  have h1 := multiplierRun_recvOf_fst n msgs
    (RecvResult.ok Event.Terminate :: extra)
  have h2 := multiplierRun_recvOf_snd n msgs
    (RecvResult.ok Event.Terminate :: extra)
  have hterm : multiplierRun n (RecvResult.ok Event.Terminate :: extra)
      = (forwardOne n Event.Terminate, true) := rfl
  rw [hterm] at h1 h2
  constructor
  · rw [h1, laneRecv_append, laneRecv_msgBlock n i hi, laneRecv_forwardOne]
    simp [hi]
  · exact h2

/-- Witness for C2 at one lane, one message, and a trailing receive
error after the `Terminate`. -/
theorem multiplier_forwards_and_stops_witness :
    laneRecv 0
        (multiplierRun 1
          (recvOf [[7]] ++ RecvResult.ok Event.Terminate ::
            [RecvResult.err "late"])).1
      = [[7]].map Event.Message ++ [Event.Terminate]
    ∧ (multiplierRun 1
          (recvOf [[7]] ++ RecvResult.ok Event.Terminate ::
            [RecvResult.err "late"])).2
        = true :=
  multiplier_forwards_and_stops 1 [[7]] [RecvResult.err "late"] 0 (by decide)

/-- Joining the pollers `Multipier::new` built (all handles present)
joins one lane after another, in lane order. -/
lemma pollerJoins_replicate (k n : Nat) :
    pollerJoins k (List.replicate n Poller.new)
      = (List.range' k n).map ShutdownAction.joinPoller := by
  induction n generalizing k with
  | zero => simp [pollerJoins]
  | succ n ih =>
      rw [List.replicate_succ, List.range'_succ]
      have hstep : pollerJoins k (Poller.new :: List.replicate n Poller.new)
          = ShutdownAction.joinPoller k ::
              pollerJoins (k + 1) (List.replicate n Poller.new) := rfl
      rw [hstep, ih]
      rfl

/-- C3: dropping the handle `Carousel::new` returned performs exactly,
in this order: one `Terminate` send on the shared channel, the join of
the multiplier's worker, then the join of every lane's worker in lane
order — no lane worker is joined before the multiplier worker. -/
theorem drop_shutdown_order (cs : List Nat) (c : Carousel)
    (h : Carousel.new cs = some c) :
    dropActions c
      = ShutdownAction.sendTerminate :: ShutdownAction.joinMultiplier ::
          (List.range cs.length).map ShutdownAction.joinPoller := by
  unfold Carousel.new at h
  by_cases hcs : cs.length > 0
  · rw [if_pos hcs] at h
    have hc : c = { tx := 0, multiplier := some (Multipier.new cs.length) } :=
      (Option.some.inj h).symm
    subst hc
    simp only [dropActions, Multipier.new]
    rw [pollerJoins_replicate 0 cs.length, List.range_eq_range']
    rfl
  · rw [if_neg hcs] at h
    exact Option.noConfusion h

/-- Witness for C3 at two consumers. -/
theorem drop_shutdown_order_witness :
    dropActions { tx := 0, multiplier := some (Multipier.new 2) }
      = ShutdownAction.sendTerminate :: ShutdownAction.joinMultiplier ::
          (List.range ([3, 4] : List Nat).length).map
            ShutdownAction.joinPoller :=
  drop_shutdown_order [3, 4]
    { tx := 0, multiplier := some (Multipier.new 2) } (by decide)

/-- C4: `Carousel::new` succeeds (returns a handle) exactly on non-empty
consumer lists; on the empty list the `assert!` fires and no carousel is
created. -/
theorem carousel_new_nonempty (cs : List Nat) :
    (Carousel.new cs).isSome ↔ cs ≠ [] := by
  rcases cs with _ | ⟨a, tl⟩
  · simp [Carousel.new]
  · simp [Carousel.new]

/-- C5: the poller worker, per received value: on `Ok(Message(d))` it
consumes `d` and continues the loop; on `Ok(Terminate)` it exits the
loop at once; on a receive error it logs and continues, leaving the run
unchanged — a receive failure never terminates the lane. -/
theorem poller_step_behavior (d : Data) (s : String)
    (rest : List RecvResult) :
    pollerRun (RecvResult.ok (Event.Message d) :: rest)
        = (d :: (pollerRun rest).1, (pollerRun rest).2)
    ∧ pollerRun (RecvResult.ok Event.Terminate :: rest) = ([], true)
    ∧ pollerRun (RecvResult.err s :: rest) = pollerRun rest := by
  refine ⟨?_, rfl, rfl⟩
  simp [pollerRun, cloneData]

/-- Replicated elements that fail a predicate contribute no count. -/
lemma countP_replicate_false {α : Type} (p : α → Bool) (a : α)
    (h : p a = false) (k : Nat) :
    (List.replicate k a).countP p = 0 := by
  induction k with
  | zero => rfl
  | succ k ih => simp [List.replicate_succ, List.countP_cons, h, ih]

/-- C6: a clone of the handle `Carousel::new` returned shares its sender
and holds no multiplier, so dropping it performs no shutdown action; and
among the originating handle and any number `k` of its clones, exactly
one handle performs a (non-empty) shutdown sequence. -/
theorem clone_no_shutdown (cs : List Nat) (c : Carousel) (k : Nat)
    (h : Carousel.new cs = some c) :
    (Carousel.clone c).tx = c.tx
    ∧ (Carousel.clone c).multiplier = none
    ∧ dropActions (Carousel.clone c) = []
    ∧ (c :: List.replicate k (Carousel.clone c)).countP
          (fun x => !(dropActions x).isEmpty) = 1 := by
  unfold Carousel.new at h
  by_cases hcs : cs.length > 0
  · rw [if_pos hcs] at h
    have hc : c = { tx := 0, multiplier := some (Multipier.new cs.length) } :=
      (Option.some.inj h).symm
    subst hc
    refine ⟨rfl, rfl, rfl, ?_⟩
    rw [List.countP_cons]
    rw [countP_replicate_false _ _ rfl k]
    rfl
  · rw [if_neg hcs] at h
    exact Option.noConfusion h

/-- Witness for C6: one consumer, two clones. -/
theorem clone_no_shutdown_witness :
    (Carousel.clone { tx := 0, multiplier := some (Multipier.new 1) }).tx
        = ({ tx := 0, multiplier := some (Multipier.new 1) } : Carousel).tx
    ∧ (Carousel.clone
          { tx := 0, multiplier := some (Multipier.new 1) }).multiplier
        = none
    ∧ dropActions
          (Carousel.clone { tx := 0, multiplier := some (Multipier.new 1) })
        = []
    ∧ (({ tx := 0, multiplier := some (Multipier.new 1) } : Carousel) ::
          List.replicate 2
            (Carousel.clone
              { tx := 0, multiplier := some (Multipier.new 1) })).countP
          (fun x => !(dropActions x).isEmpty) = 1 :=
  clone_no_shutdown [9] { tx := 0, multiplier := some (Multipier.new 1) } 2
    (by decide)

/-- C7: `put` wraps the payload as `Message` and sends it on the shared
channel; on an open channel the message is enqueued, and on a closed
channel the `unwrap` panics — `put` never returns a recoverable error
outcome to its caller. -/
theorem put_sends_message (c : Carousel) (d : Data) (ch : SharedChannel) :
    Carousel.put c d ch
      = if ch.closed then none
        else some { ch with queue := ch.queue ++ [Event.Message d] } := by
  by_cases h : ch.closed
  · simp [Carousel.put, SharedChannel.send, unwrapSend, h]
  · simp [Carousel.put, SharedChannel.send, unwrapSend, h]

/-- C8: the derived `Clone` of `Event` deep-copies the payload into a
value equal to the original; one fan-out step sends exactly `n` copies,
and each lane `i < n` receives exactly one copy, equal to the submitted
event. -/
theorem event_clone_deep_copy (e : Event) (n i : Nat) :
    Event.clone e = e
    ∧ (forwardOne n e).length = n
    ∧ laneRecv i (forwardOne n e) = (if i < n then [e] else []) :=
  ⟨clone_eq e, by simp [forwardOne], laneRecv_forwardOne i n e⟩

/-- C9: across any sequence of public API calls, a `Terminate` event
appears on the shared channel exactly when the owning handle is dropped:
`put` only ever sends `Message` events, and no other public operation
sends `Terminate`. -/
theorem no_terminate_from_put (calls : List ApiCall) :
    Event.Terminate ∈ sentEvents calls ↔ ApiCall.dropOwner ∈ calls := by
  induction calls with
  | nil => simp [sentEvents]
  | cons a rest ih =>
      cases a with
      | put d => simpa [sentEvents, apiSends] using ih
      | dropOwner => simp [sentEvents, apiSends]
      | dropClone => simpa [sentEvents, apiSends] using ih

end Asynch

namespace Mp2c

/-- C10: in the abandoned ring-buffer draft, a freshly constructed
carousel's backing vector has length 0, so whenever the `is_full` check
passes (returns `false`), `add` hits the out-of-bounds index assignment
`data[tail] = event` — the draft's `add` can never succeed. -/
theorem draft_add_out_of_bounds (size n : Nat) (e : Event)
    (h : Carousel.is_full (Carousel.fresh size n) = some false) :
    Carousel.add (Carousel.fresh size n) e
      = AddResult.fatal "index out of bounds" := by
  unfold Carousel.add
  rw [h]
  rfl

/-- Witness for C10 at capacity 5 and one consumer: the `is_full` check
passes, and the add dies on the index. -/
theorem draft_add_out_of_bounds_witness :
    Carousel.add (Carousel.fresh 5 1) (Event.Message [1])
      = AddResult.fatal "index out of bounds" :=
  draft_add_out_of_bounds 5 1 (Event.Message [1]) (by decide)

end Mp2c
